import Mathlib

/-!
Shallow embedding of the error-handling / health-check / session-lifecycle
core of the `goit-pythonweb-hw-08` contacts service, together with theorems
checking the specification's claims about it.

Embedded source files:
  * `src/utils/constants.py`  — message constants
  * `src/utils/errors.py`     — error-raising helpers
  * `src/api/utils.py`        — the health-check endpoint
  * `src/main.py`             — the global exception handlers
  * `src/database/db.py`      — the database session manager
-/

/-- JSON values, the shape of every request/response body in the service.
Only strings, integers and objects occur in the embedded code. -/
inductive Json where
  | str (s : String)
  | num (n : Int)
  | obj (fields : List (String × Json))

/-- Look up a top-level field of a JSON object; `none` for non-objects. -/
def Json.lookup (j : Json) (k : String) : Option Json :=
  match j with
  | .obj fields => fields.lookup k
  | _ => none

/-- A single-quote character, `'` (codepoint 39), used by the message
templates. -/
def squote : String := String.singleton (Char.ofNat 39)

/-- `fastapi.HTTPException`: the exception carrying an HTTP status code and a
`detail` payload (a string or a dict in the source; a `Json` value here). -/
structure HTTPException where
  status_code : Nat
  detail : Json

/-- A rendered HTTP response: status code plus JSON body, as produced by
`JSONResponse(status_code=..., content=...)`. -/
structure Response where
  status_code : Nat
  content : Json

/-- Python exceptions distinguished by the embedded code's `except` clauses:
`fastapi.HTTPException`, `sqlalchemy.exc.SQLAlchemyError`, `RuntimeError`,
and any other exception. -/
inductive PyExc where
  | http (e : HTTPException)
  | sqlalchemyError (msg : String)
  | runtimeError (msg : String)
  | other (msg : String)

/-- `src/utils/constants.py`: `MESSAGE_ERROR_INTERNAL_SERVER_ERROR`. -/
def MESSAGE_ERROR_INTERNAL_SERVER_ERROR : String := "Internal Server Error"

/-- The `value: Any` argument of the error helpers: the embedded code only
ever receives strings or integers there. -/
inductive PyValue where
  | str (s : String)
  | int (n : Int)

/-- Python `str()` as used by `str.format` on a `PyValue`:
`str(42) = "42"`, `str("id") = "id"`. -/
def PyValue.format : PyValue → String
  | .str s => s
  | .int n => toString n

/-- How a `PyValue` is serialized when placed in a JSON body. -/
def PyValue.toJson : PyValue → Json
  | .str s => Json.str s
  | .int n => Json.num n

/-- Modelled from the spec: the constant `MESSAGE_RESOURCE_NOT_FOUND` is
imported by `src/utils/errors.py` and `src/schemas/errors.py` from
`src.utils.constants` but its definition is not among the provided source
files.  The spec gives the template: `detail` is formatted as
"<resource> with <key> '<value>' not found".  Modelled as the function
applying that template. -/
def MESSAGE_RESOURCE_NOT_FOUND (resource key value : String) : String :=
  resource ++ " with " ++ key ++ " " ++ squote ++ value ++ squote ++ " not found"

/-- Modelled from the spec: the constant `MESSAGE_RESOURCE_ALREADY_EXISTS` is
imported by `src/utils/errors.py` and `src/schemas/errors.py` from
`src.utils.constants` but its definition is not among the provided source
files.  The spec gives the template: `detail` is formatted as
"<resource> with <key> '<value>' already exists".  Modelled as the function
applying that template. -/
def MESSAGE_RESOURCE_ALREADY_EXISTS (resource key value : String) : String :=
  resource ++ " with " ++ key ++ " " ++ squote ++ value ++ squote ++ " already exists"

/-- `src/utils/errors.py`, `_raise_http_error`: builds the structured error
payload and raises `HTTPException(status_code=status_code, detail=error_payload)`.
The raised exception is the return value here. -/
def _raise_http_error (status_code : Nat)
    (message_template : String → String → String → String)
    (resource key : String) (value : PyValue) : HTTPException :=
  { status_code := status_code
    detail := Json.obj
      [ ("detail", Json.str (message_template resource key value.format))
      , ("resource", Json.str resource)
      , ("key", Json.str key)
      , ("value", value.toJson) ] }

/-- `src/utils/errors.py`, `raise_http_404_not_found`. -/
def raise_http_404_not_found (resource key : String) (value : PyValue) : HTTPException :=
  _raise_http_error 404 MESSAGE_RESOURCE_NOT_FOUND resource key value

/-- `src/utils/errors.py`, `raise_http_409_conflict`. -/
def raise_http_409_conflict (resource key : String) (value : PyValue) : HTTPException :=
  _raise_http_error 409 MESSAGE_RESOURCE_ALREADY_EXISTS resource key value

/-- `src/utils/errors.py`, `raise_http_500`: raises
`HTTPException(status_code=500, detail=\x7b"detail": detail\x7d)`.
In the source `detail` defaults to "Internal Server Error"; the embedded
callers always pass it explicitly, as does every use below. -/
def raise_http_500 (detail : String) : HTTPException :=
  { status_code := 500, detail := Json.obj [("detail", Json.str detail)] }

/-- `src/main.py`, `http_exception_handler`: renders any `HTTPException` as
`JSONResponse(status_code=exc.status_code, content=\x7b"detail": exc.detail\x7d)`. -/
def http_exception_handler (exc : HTTPException) : Response :=
  { status_code := exc.status_code
    content := Json.obj [("detail", exc.detail)] }

/-- `src/main.py`, `handle_global_exception`: renders any uncaught exception
as a 500 response; in debug mode the body carries the message, `str(exc)` and
`traceback.format_exc()`, otherwise only the fixed generic message.
`excStr` stands for `str(exc)` and `tb` for `traceback.format_exc()`. -/
def handle_global_exception (debug : Bool) (excStr tb : String) : Response :=
  if debug then
    { status_code := 500
      content := Json.obj
        [ ("detail", Json.str ("Unhandled exceptions caused " ++ MESSAGE_ERROR_INTERNAL_SERVER_ERROR))
        , ("error", Json.str excStr)
        , ("traceback", Json.str tb) ] }
  else
    { status_code := 500
      content := Json.obj [("detail", Json.str MESSAGE_ERROR_INTERNAL_SERVER_ERROR)] }

/-- The outcome of `await db.execute(text("SELECT 1"))` followed by
`result.scalar_one_or_none()`: either a scalar (possibly absent), or a
`SQLAlchemyError` raised by the database layer. -/
inductive DbResult where
  | ok (scalar : Option Int)
  | raises (msg : String)

/-- `src/api/utils.py`, `check_app_health`, the `try` block body:
execute `SELECT 1`; if the scalar is `None`, `raise_http_500("Database is
not configured correctly")`; otherwise return `\x7b"status": "ok"\x7d`. -/
def check_app_health_try (dbr : DbResult) : Except PyExc Json :=
  match dbr with
  | .raises msg => Except.error (PyExc.sqlalchemyError msg)
  | .ok none =>
      Except.error (PyExc.http (raise_http_500 "Database is not configured correctly"))
  | .ok (some _) => Except.ok (Json.obj [("status", Json.str "ok")])

/-- `src/api/utils.py`, `check_app_health`: the `try` block wrapped in
`except SQLAlchemyError`, which replaces a database-layer error by
`raise_http_500("Error connecting to the database")` and lets every other
exception propagate unchanged. -/
def check_app_health (dbr : DbResult) : Except PyExc Json :=
  match check_app_health_try dbr with
  | Except.error (PyExc.sqlalchemyError _) =>
      Except.error (PyExc.http (raise_http_500 "Error connecting to the database"))
  | r => r

/-- `src/main.py`: dispatch of an endpoint outcome through the installed
exception handlers: a normal return is rendered as a 200 response with the
returned body, an `HTTPException` goes to `http_exception_handler`, and any
other exception goes to `handle_global_exception` (`tb` stands for the
traceback text available at handling time). -/
def app_render (res : Except PyExc Json) (debug : Bool) (tb : String) : Response :=
  match res with
  | Except.ok body => { status_code := 200, content := body }
  | Except.error (PyExc.http e) => http_exception_handler e
  | Except.error (PyExc.sqlalchemyError msg) => handle_global_exception debug msg tb
  | Except.error (PyExc.runtimeError msg) => handle_global_exception debug msg tb
  | Except.error (PyExc.other msg) => handle_global_exception debug msg tb

/-- A request to `GET /api/healthchecker`: run `check_app_health` on the
database outcome and render the result through the handler chain. -/
def healthRequest (dbr : DbResult) (debug : Bool) (tb : String) : Response :=
  app_render (check_app_health dbr) debug tb

/-- Events observable on a database session object. -/
inductive SessionEvent where
  | rollback
  | close
  deriving Repr, DecidableEq

/-- What the code executed inside the `session()` scope does: return a value
or raise an exception. -/
inductive BodyResult (α : Type) where
  | ret (a : α)
  | exc (e : PyExc)

/-- `src/database/db.py`, `DatabaseSessionManager`: holds the engine and the
session maker.  The session maker is typed `async_sessionmaker` but compared
against `None` in `session()`, hence an `Option` here; the session factory
itself has no observable structure in this model. -/
structure DatabaseSessionManager where
  _session_maker : Option Unit

/-- `src/database/db.py`, `DatabaseSessionManager.__init__`: builds the
engine and the session maker from the URL; the session maker is always set. -/
def DatabaseSessionManager.init (_url : String) : DatabaseSessionManager :=
  { _session_maker := some () }

/-- `src/database/db.py`, `DatabaseSessionManager.session`: if the session
maker is `None`, raise `RuntimeError("Database session is not initialized")`;
otherwise run the body; on `SQLAlchemyError` roll back and re-raise; in all
cases close the session on exit (`finally`).  Returns the propagated outcome
together with the ordered list of events performed on the session. -/
def DatabaseSessionManager.session {α : Type} (mgr : DatabaseSessionManager)
    (body : BodyResult α) : Except PyExc α × List SessionEvent :=
  match mgr._session_maker with
  | none => (Except.error (PyExc.runtimeError "Database session is not initialized"), [])
  | some _ =>
      match body with
      | .ret a => (Except.ok a, [SessionEvent.close])
      | .exc (PyExc.sqlalchemyError m) =>
          (Except.error (PyExc.sqlalchemyError m), [SessionEvent.rollback, SessionEvent.close])
      | .exc e => (Except.error e, [SessionEvent.close])

/-- `sub` occurs as a contiguous substring of `s`. -/
def strContains (s sub : String) : Prop :=
  ∃ pre post, s = pre ++ sub ++ post

/-!  Theorems checking the claims. -/

/-- C1: for every request to the health endpoint in which the `SELECT 1`
query returns a non-null scalar, `check_app_health` returns exactly the body
`\x7b"status": "ok"\x7d` with HTTP status 200, in both debug and production
mode. -/
theorem health_ok_when_scalar_nonnull (v : Int) (debug : Bool) (tb : String) :
    healthRequest (DbResult.ok (some v)) debug tb =
      { status_code := 200, content := Json.obj [("status", Json.str "ok")] } := rfl

/-- C2 (code evaluated at the failing input): when the query succeeds but the
scalar is null, the response has status 500 (never 200) and the 500 detail
message is "Database is not configured correctly"; however the rendered body
is the double-wrapped object
`\x7b"detail": \x7b"detail": "Database is not configured correctly"\x7d\x7d`
(the helper wraps the message in a dict and `http_exception_handler` wraps
`exc.detail` again), not the flat body
`\x7b"detail": "Database is not configured correctly"\x7d` that the claim and
the declared `InternalServerErrorResponse` schema state. -/
theorem health_null_scalar_nested_body (debug : Bool) (tb : String) :
    healthRequest (DbResult.ok none) debug tb =
      { status_code := 500
        content := Json.obj [("detail",
          Json.obj [("detail", Json.str "Database is not configured correctly")])] } ∧
    healthRequest (DbResult.ok none) debug tb ≠
      { status_code := 500
        content := Json.obj [("detail", Json.str "Database is not configured correctly")] } ∧
    (healthRequest (DbResult.ok none) debug tb).status_code ≠ 200 := by
  refine ⟨rfl, ?_, by simp [healthRequest, app_render, check_app_health,
    check_app_health_try, raise_http_500, http_exception_handler]⟩
  intro h
  simp [healthRequest, app_render, check_app_health, check_app_health_try,
    raise_http_500, http_exception_handler] at h

/-- C3: when the database call raises a connectivity fault (any
`SQLAlchemyError`, whatever its text), the health endpoint responds 500,
never 200, with the 500 detail message "Error connecting to the database";
the response is one fixed constant, identical for any two fault texts and in
both debug and production mode, so the raw driver exception text never
reaches the body. -/
theorem health_db_error_response (msg : String) (debug : Bool) (tb : String) :
    healthRequest (DbResult.raises msg) debug tb =
      { status_code := 500
        content := Json.obj [("detail",
          Json.obj [("detail", Json.str "Error connecting to the database")])] } ∧
    (healthRequest (DbResult.raises msg) debug tb).status_code ≠ 200 ∧
    (∀ msg2 debug2 tb2,
      healthRequest (DbResult.raises msg) debug tb =
        healthRequest (DbResult.raises msg2) debug2 tb2) := by
  refine ⟨rfl, by simp [healthRequest, app_render, check_app_health,
    check_app_health_try, raise_http_500, http_exception_handler], ?_⟩
  intro msg2 debug2 tb2
  rfl

/-- C10: the two 500 failure causes of the health endpoint are mutually
exclusive.  The `HTTPException` raised for a null scalar is not a
`SQLAlchemyError`, so the `except SQLAlchemyError` clause leaves the outcome
of the `try` block unchanged; consequently the null-scalar response never
carries the "Error connecting to the database" message and the
database-fault response never carries the "Database is not configured
correctly" message. -/
theorem health_failure_causes_exclusive (msg : String) (debug : Bool) (tb : String) :
    check_app_health (DbResult.ok none) = check_app_health_try (DbResult.ok none) ∧
    healthRequest (DbResult.ok none) debug tb =
      { status_code := 500
        content := Json.obj [("detail",
          Json.obj [("detail", Json.str "Database is not configured correctly")])] } ∧
    healthRequest (DbResult.ok none) debug tb ≠
      { status_code := 500
        content := Json.obj [("detail",
          Json.obj [("detail", Json.str "Error connecting to the database")])] } ∧
    healthRequest (DbResult.raises msg) debug tb ≠
      { status_code := 500
        content := Json.obj [("detail",
          Json.obj [("detail", Json.str "Database is not configured correctly")])] } := by
  refine ⟨rfl, rfl, ?_, ?_⟩ <;>
    · intro h
      simp [healthRequest, app_render, check_app_health, check_app_health_try,
        raise_http_500, http_exception_handler] at h

/-- C4 (code evaluated at the failing input `resource="Contact"`, `key="id"`,
`value=42`): the rendered response has status 404 and the formatted detail
string "Contact with id '42' not found" with the raw resource/key/value
fields — but the whole structured payload sits nested under the body's
single `detail` key (`http_exception_handler` wraps `exc.detail` again), so
the body is not the flat object the claim states, and the body's top-level
`detail` is not a string. -/
theorem notFound_contact_id_42_nested_body :
    http_exception_handler (raise_http_404_not_found "Contact" "id" (PyValue.int 42)) =
      { status_code := 404
        content := Json.obj [("detail", Json.obj
          [ ("detail", Json.str ("Contact with id " ++ squote ++ "42" ++ squote ++ " not found"))
          , ("resource", Json.str "Contact")
          , ("key", Json.str "id")
          , ("value", Json.num 42) ])] } ∧
    http_exception_handler (raise_http_404_not_found "Contact" "id" (PyValue.int 42)) ≠
      { status_code := 404
        content := Json.obj
          [ ("detail", Json.str ("Contact with id " ++ squote ++ "42" ++ squote ++ " not found"))
          , ("resource", Json.str "Contact")
          , ("key", Json.str "id")
          , ("value", Json.num 42) ] } ∧
    (∀ s, (http_exception_handler
        (raise_http_404_not_found "Contact" "id" (PyValue.int 42))).content.lookup "detail" ≠
      some (Json.str s)) := by
  refine ⟨rfl, ?_, ?_⟩
  · intro h
    simp [http_exception_handler, raise_http_404_not_found, _raise_http_error] at h
  · intro s h
    simp [http_exception_handler, raise_http_404_not_found, _raise_http_error,
      Json.lookup, List.lookup] at h

/-- C5 (code evaluated at a failing input): for every resource/key/value the
status codes match the failure kinds exactly (404 for not-found, 409 for
conflict), and the formatted detail string of the raised payload is non-empty
and contains the resource, the key and the value; but in the rendered body
the top-level `detail` is the structured payload object, not a string
(checked concretely at `resource="Contact"`, `key="email"`,
`value="john"`). -/
theorem conflict_notfound_status_and_detail (resource key : String) (value : PyValue) :
    (http_exception_handler (raise_http_404_not_found resource key value)).status_code = 404 ∧
    (http_exception_handler (raise_http_409_conflict resource key value)).status_code = 409 ∧
    (raise_http_404_not_found resource key value).detail.lookup "detail" =
      some (Json.str (MESSAGE_RESOURCE_NOT_FOUND resource key value.format)) ∧
    (raise_http_409_conflict resource key value).detail.lookup "detail" =
      some (Json.str (MESSAGE_RESOURCE_ALREADY_EXISTS resource key value.format)) ∧
    0 < (MESSAGE_RESOURCE_NOT_FOUND resource key value.format).length ∧
    0 < (MESSAGE_RESOURCE_ALREADY_EXISTS resource key value.format).length ∧
    strContains (MESSAGE_RESOURCE_NOT_FOUND resource key value.format) resource ∧
    strContains (MESSAGE_RESOURCE_NOT_FOUND resource key value.format) key ∧
    strContains (MESSAGE_RESOURCE_NOT_FOUND resource key value.format) value.format ∧
    strContains (MESSAGE_RESOURCE_ALREADY_EXISTS resource key value.format) resource ∧
    strContains (MESSAGE_RESOURCE_ALREADY_EXISTS resource key value.format) key ∧
    strContains (MESSAGE_RESOURCE_ALREADY_EXISTS resource key value.format) value.format ∧
    (∀ s, (http_exception_handler
        (raise_http_409_conflict "Contact" "email" (PyValue.str "john"))).content.lookup "detail" ≠
      some (Json.str s)) ∧
    (∀ s, (http_exception_handler
        (raise_http_404_not_found "Contact" "email" (PyValue.str "john"))).content.lookup "detail" ≠
      some (Json.str s)) := by
  have hw : String.length " with " = 6 := rfl
  refine ⟨rfl, rfl, rfl, rfl, ?_, ?_, ?_, ?_, ?_, ?_, ?_, ?_, ?_, ?_⟩
  · rw [MESSAGE_RESOURCE_NOT_FOUND]
    simp only [String.length_append]
    omega
  · rw [MESSAGE_RESOURCE_ALREADY_EXISTS]
    simp only [String.length_append]
    omega
  · exact ⟨"", " with " ++ key ++ " " ++ squote ++ value.format ++ squote ++ " not found",
      by simp [MESSAGE_RESOURCE_NOT_FOUND, String.empty_append, String.append_assoc]⟩
  · exact ⟨resource ++ " with ", " " ++ squote ++ value.format ++ squote ++ " not found",
      by simp [MESSAGE_RESOURCE_NOT_FOUND, String.append_assoc]⟩
  · exact ⟨resource ++ " with " ++ key ++ " " ++ squote, squote ++ " not found",
      by simp [MESSAGE_RESOURCE_NOT_FOUND, String.append_assoc]⟩
  · exact ⟨"", " with " ++ key ++ " " ++ squote ++ value.format ++ squote ++ " already exists",
      by simp [MESSAGE_RESOURCE_ALREADY_EXISTS, String.empty_append, String.append_assoc]⟩
  · exact ⟨resource ++ " with ", " " ++ squote ++ value.format ++ squote ++ " already exists",
      by simp [MESSAGE_RESOURCE_ALREADY_EXISTS, String.append_assoc]⟩
  · exact ⟨resource ++ " with " ++ key ++ " " ++ squote, squote ++ " already exists",
      by simp [MESSAGE_RESOURCE_ALREADY_EXISTS, String.append_assoc]⟩
  · intro s h
    simp [http_exception_handler, raise_http_409_conflict, _raise_http_error,
      Json.lookup, List.lookup] at h
  · intro s h
    simp [http_exception_handler, raise_http_404_not_found, _raise_http_error,
      Json.lookup, List.lookup] at h

/-- C6: for every session obtained from a constructed manager, on normal exit
the session is closed (and only closed); on a database-layer
(`SQLAlchemyError`) error raised inside the scope, the session is rolled
back first, then closed, and the original error is re-raised unchanged. -/
theorem session_scope_contract {α : Type} (url : String) (a : α) (m : String) :
    (DatabaseSessionManager.init url).session (BodyResult.ret a) =
      (Except.ok a, [SessionEvent.close]) ∧
    (DatabaseSessionManager.init url).session
        (BodyResult.exc (PyExc.sqlalchemyError m) : BodyResult α) =
      (Except.error (PyExc.sqlalchemyError m),
        [SessionEvent.rollback, SessionEvent.close]) :=
  ⟨rfl, rfl⟩

/-- C7 counterexample: inside a session scope an error that is not a
`SQLAlchemyError` (here a generic exception "boom") leaves the scope with
the session closed but with no rollback performed, although an error
occurred during the session's lifetime. -/
theorem session_no_rollback_on_non_db_error :
    ((DatabaseSessionManager.init "postgresql+asyncpg://db").session
        (BodyResult.exc (PyExc.other "boom") : BodyResult Json)).2 =
      [SessionEvent.close] ∧
    SessionEvent.rollback ∉
      ((DatabaseSessionManager.init "postgresql+asyncpg://db").session
        (BodyResult.exc (PyExc.other "boom") : BodyResult Json)).2 :=
  ⟨rfl, by decide⟩

/-- C7 amended: for every session obtained from a constructed manager and
every exit path of its scope, the session's last event is a close (the
session is closed unconditionally); a rollback occurs, and then before the
close, exactly when the error raised inside the scope is a database-layer
(`SQLAlchemyError`) error. -/
theorem session_always_closed_rollback_iff_db_error {α : Type}
    (url : String) (body : BodyResult α) :
    (((DatabaseSessionManager.init url).session body).2).getLast? =
      some SessionEvent.close ∧
    (SessionEvent.rollback ∈ ((DatabaseSessionManager.init url).session body).2 ↔
      ∃ m, body = BodyResult.exc (PyExc.sqlalchemyError m)) := by
  cases body with
  | ret a => exact ⟨rfl, by simp [DatabaseSessionManager.session, DatabaseSessionManager.init]⟩
  | exc e =>
    cases e with
    | http e => exact ⟨rfl, by simp [DatabaseSessionManager.session, DatabaseSessionManager.init]⟩
    | sqlalchemyError m =>
        exact ⟨rfl, by simp [DatabaseSessionManager.session, DatabaseSessionManager.init]⟩
    | runtimeError m =>
        exact ⟨rfl, by simp [DatabaseSessionManager.session, DatabaseSessionManager.init]⟩
    | other m => exact ⟨rfl, by simp [DatabaseSessionManager.session, DatabaseSessionManager.init]⟩

/-- C8: every uncaught fault reaching the global exception handler yields
status 500 in both modes; with the debug flag disabled the body is exactly
the fixed `\x7b"detail": "Internal Server Error"\x7d` and is identical for
any two faults; with the debug flag enabled the body carries the human
message, the raw error string and the traceback. -/
theorem global_handler_contract (e1 t1 e2 t2 : String) :
    (handle_global_exception false e1 t1).status_code = 500 ∧
    (handle_global_exception true e1 t1).status_code = 500 ∧
    handle_global_exception false e1 t1 =
      { status_code := 500
        content := Json.obj [("detail", Json.str MESSAGE_ERROR_INTERNAL_SERVER_ERROR)] } ∧
    handle_global_exception false e1 t1 = handle_global_exception false e2 t2 ∧
    (handle_global_exception true e1 t1).content.lookup "detail" =
      some (Json.str ("Unhandled exceptions caused " ++ MESSAGE_ERROR_INTERNAL_SERVER_ERROR)) ∧
    (handle_global_exception true e1 t1).content.lookup "error" = some (Json.str e1) ∧
    (handle_global_exception true e1 t1).content.lookup "traceback" = some (Json.str t1) :=
  ⟨rfl, rfl, rfl, rfl, rfl, rfl, rfl⟩

/-- C9: if the session manager's session factory is absent, every attempt to
acquire a session fails with `RuntimeError("Database session is not
initialized")` before any session event happens, and that error kind is
distinct from the database-connectivity (`SQLAlchemyError`) kind. -/
theorem session_uninitialized {α : Type} (mgr : DatabaseSessionManager)
    (body : BodyResult α) (h : mgr._session_maker = none) :
    mgr.session body =
      (Except.error (PyExc.runtimeError "Database session is not initialized"), []) ∧
    ∀ m, PyExc.runtimeError "Database session is not initialized" ≠
      PyExc.sqlalchemyError m := by
  constructor
  · rw [DatabaseSessionManager.session.eq_def, h]
  · intro m hm
    cases hm

/-- C9 witness: a manager whose session factory is absent, with a concrete
body, satisfies the hypothesis and the conclusion of
`session_uninitialized`. -/
theorem session_uninitialized_witness :
    ({ _session_maker := none } : DatabaseSessionManager)._session_maker = none ∧
    (({ _session_maker := none } : DatabaseSessionManager).session
        (BodyResult.ret (Json.str "x")) =
      (Except.error (PyExc.runtimeError "Database session is not initialized"), []) ∧
    ∀ m, PyExc.runtimeError "Database session is not initialized" ≠
      PyExc.sqlalchemyError m) :=
  ⟨rfl, session_uninitialized { _session_maker := none } (BodyResult.ret (Json.str "x")) rfl⟩
